import Mathlib

/-!
Shallow embedding of the bandar-baat language-learning backend
(`apps/api/src`): the SM-2 review scheduler, level tables, streak
computation, fuzzy matching, exercise evaluation, LLM-response parsing,
story content selection and story-completion word updates, together with
theorems checking the specification's claims about them.
-/

/-- Word acquisition status, from `db/models.py` (`WordStatus`). -/
inductive WordStatus where
  | NEW
  | LEARNING
  | KNOWN
  | MASTERED
deriving DecidableEq, Repr

/-- CEFR proficiency tier, from `db/models.py` (`CEFRLevel`). -/
inductive CEFRLevel where
  | A1
  | A2
  | B1
  | B2
deriving DecidableEq, Repr

/-- Exercise type, from `db/models.py` (`ExerciseType`). -/
inductive ExerciseType where
  | COMPREHENSION
  | FILL_BLANK
  | TRANSLATE_TO_HINDI
  | TRANSLATE_TO_ENGLISH
  | WORD_ORDER
  | MULTIPLE_CHOICE
deriving DecidableEq, Repr

/-- The mutable per-user-per-word progress row (`UserWord` in
`db/models.py`).  Python floats are modelled as rationals; timestamps as
rationals counting days. -/
structure UserWord where
  status : WordStatus
  familiarity : ℚ
  times_seen : ℕ
  times_reviewed : ℕ
  times_correct : ℕ
  last_seen_at : Option ℚ
  next_review_at : Option ℚ
  srs_interval_days : ℚ
  srs_ease_factor : ℚ
deriving DecidableEq, Repr

/-- Python's built-in `round` on a real value: round half to even. -/
def pyRound (q : ℚ) : ℤ :=
  let f := ⌊q⌋
  let r := q - f
  if r < 1/2 then f
  else if 1/2 < r then f + 1
  else if f % 2 = 0 then f else f + 1

/-- The ease-factor update of the SM-2 branch of `submit_review`
(`routes/reviews.py`):
`max(1.3, ease + (0.1 - (5 - quality) * (0.08 + (5 - quality) * 0.02)))`. -/
def updatedEase (ease : ℚ) (quality : ℤ) : ℚ :=
  max (13/10) (ease + (1/10 - ((5 - quality : ℤ) : ℚ) * (8/100 + ((5 - quality : ℤ) : ℚ) * (2/100))))

/-- The state update performed by `submit_review` in `routes/reviews.py`
on the selected `UserWord` row, given the request quality (0-5) and the
current time `now` (in days). -/
def submitReview (now : ℚ) (quality : ℤ) (uw : UserWord) : UserWord :=
  let uw1 :=
    if quality < 3 then
      { uw with srs_interval_days := 1 }
    else
      let ease := updatedEase uw.srs_ease_factor quality
      let interval :=
        if uw.srs_interval_days = 0 then (1 : ℚ)
        else if uw.srs_interval_days = 1 then 6
        else (pyRound (uw.srs_interval_days * ease) : ℚ)
      { uw with srs_ease_factor := ease, srs_interval_days := interval }
  let uw2 := { uw1 with
    times_reviewed := uw1.times_reviewed + 1,
    last_seen_at := some now,
    next_review_at := some (now + uw1.srs_interval_days) }
  let uw3 := if 3 ≤ quality then { uw2 with times_correct := uw2.times_correct + 1 } else uw2
  let fam := min 1 ((uw3.times_correct : ℚ) / ((max 1 uw3.times_reviewed : ℕ) : ℚ))
  let uw4 := { uw3 with familiarity := fam }
  { uw4 with status :=
      if 9/10 ≤ fam ∧ 21 ≤ uw4.srs_interval_days then WordStatus.MASTERED
      else if 7/10 ≤ fam then WordStatus.KNOWN
      else WordStatus.LEARNING }

/-- A finite history of review submissions applied in order. -/
def submitReviews (now : ℚ) (uw : UserWord) (qs : List ℤ) : UserWord :=
  qs.foldl (fun w q => submitReview now q w) uw

/-- A concrete progress row with the column defaults of `db/models.py`
(`familiarity 0.0`, `srs_interval_days 1.0`, `srs_ease_factor 2.5`). -/
def sampleWord : UserWord :=
  { status := WordStatus.NEW, familiarity := 0, times_seen := 0,
    times_reviewed := 0, times_correct := 0, last_seen_at := none,
    next_review_at := none, srs_interval_days := 1, srs_ease_factor := 5/2 }

/-- `_determine_user_level` in `services/story_generator.py`
(story-readiness table, cutoffs 50/150/400). -/
def determineUserLevel (wordsKnown : ℕ) : CEFRLevel :=
  if wordsKnown < 50 then CEFRLevel.A1
  else if wordsKnown < 150 then CEFRLevel.A2
  else if wordsKnown < 400 then CEFRLevel.B1
  else CEFRLevel.B2

/-- The inline level table of `get_ready_story_info` in
`routes/stories.py` (same cutoffs 50/150/400). -/
def readyStoryLevel (wordsKnown : ℕ) : CEFRLevel :=
  if wordsKnown < 50 then CEFRLevel.A1
  else if wordsKnown < 150 then CEFRLevel.A2
  else if wordsKnown < 400 then CEFRLevel.B1
  else CEFRLevel.B2

/-- `_determine_level` in `routes/users.py` (dashboard-stats table,
cutoffs 100/300/600). -/
def determineLevel (wordsKnown : ℕ) : CEFRLevel :=
  if wordsKnown < 100 then CEFRLevel.A1
  else if wordsKnown < 300 then CEFRLevel.A2
  else if wordsKnown < 600 then CEFRLevel.B1
  else CEFRLevel.B2

/-- The loop of `_calculate_streak` in `routes/users.py`: walks the
session dates (days, newest first) keeping the anchor date and the
running streak. -/
def streakLoop : ℤ → ℕ → List ℤ → ℕ
  | _, streak, [] => streak
  | cur, streak, d :: rest =>
    if d = cur then streakLoop cur (max streak 1) rest
    else if d = cur - 1 then streakLoop d (streak + 1) rest
    else streak

/-- `_calculate_streak` in `routes/users.py`: `today` is the current
calendar date and `sessionDates` the dates of the user's ended sessions,
sorted descending. -/
def calculateStreak (today : ℤ) (sessionDates : List ℤ) : ℕ :=
  if sessionDates = [] then 0 else streakLoop today 0 sessionDates

/-- Does `pat` occur at the head of the second list? -/
def isPrefixList : List Char → List Char → Bool
  | [], _ => true
  | _ :: _, [] => false
  | p :: ps, c :: cs => p == c && isPrefixList ps cs

/-- Python's `pat in s` substring test. -/
def containsSub (pat : List Char) : List Char → Bool
  | [] => pat.isEmpty
  | c :: cs => isPrefixList pat (c :: cs) || containsSub pat cs

/-- Suffix after the first occurrence of `pat` (empty if `pat` is absent). -/
def afterFirst (pat : List Char) : List Char → List Char
  | [] => []
  | c :: cs =>
    if isPrefixList pat (c :: cs) then (c :: cs).drop pat.length
    else afterFirst pat cs

/-- Text before the first occurrence of `pat` (the whole string if `pat`
is absent); `upToFirst pat (afterFirst pat s)` is `s.split(pat)[1]` in
Python when `pat` occurs in `s`. -/
def upToFirst (pat : List Char) : List Char → List Char
  | [] => []
  | c :: cs =>
    if isPrefixList pat (c :: cs) then []
    else c :: upToFirst pat cs

/-- Left-to-right, non-overlapping replacement; the fuel starts at the
string length, which suffices for every non-empty pattern. -/
def pyReplaceAux (pat rep : List Char) : ℕ → List Char → List Char
  | 0, s => s
  | _, [] => []
  | fuel + 1, c :: cs =>
    if isPrefixList pat (c :: cs) then rep ++ pyReplaceAux pat rep fuel ((c :: cs).drop pat.length)
    else c :: pyReplaceAux pat rep fuel cs

/-- Python's `s.replace(pat, rep)` for a non-empty pattern. -/
def pyReplace (pat rep s : List Char) : List Char :=
  pyReplaceAux pat rep s.length s

/-- Python's `s.strip()`: drop leading and trailing whitespace. -/
def pyStrip (s : List Char) : List Char :=
  (((s.dropWhile Char.isWhitespace).reverse).dropWhile Char.isWhitespace).reverse

/-- `_normalize` in `services/exercise_evaluator.py`:
`text.lower().strip().replace("  ", " ")`. -/
def normalizeText (text : List Char) : List Char :=
  pyReplace [' ', ' '] [' '] (pyStrip (text.map Char.toLower))

/-- The replacement table of `_simplify_romanization` in
`services/exercise_evaluator.py`, in source (dict) order. -/
def romanizationTable : List (List Char × List Char) :=
  [("aa".toList, "a".toList), ("ee".toList, "i".toList),
   ("oo".toList, "u".toList), ("sh".toList, "s".toList),
   ("th".toList, "t".toList), ("dh".toList, "d".toList),
   ("bh".toList, "b".toList), ("ph".toList, "f".toList),
   ("kh".toList, "k".toList), ("gh".toList, "g".toList),
   ("chh".toList, "ch".toList)]

/-- `_simplify_romanization`: apply each replacement in table order. -/
def simplifyRomanization (text : List Char) : List Char :=
  romanizationTable.foldl (fun r p => pyReplace p.1 p.2 r) text

/-- The inner loop of `_levenshtein_distance`: given `c1` (the current
char of `s1`), the remaining chars of `s2`, the tail of the previous row
starting at column `j`, and the last value appended to the current row,
produce the rest of the current row. -/
def levRow (c1 : Char) : List Char → List ℕ → ℕ → List ℕ
  | [], _, _ => []
  | _ :: _, [], _ => []
  | c2 :: s2, pj :: prest, cur =>
    let pj1 := prest.headD 0
    let v := min (min (pj1 + 1) (cur + 1)) (pj + (if c1 = c2 then 0 else 1))
    v :: levRow c1 s2 prest v

/-- The outer loop of `_levenshtein_distance`: fold each char of `s1`
into a new row, starting from `previous_row`. -/
def levLoop (s2 : List Char) : List Char → List ℕ → ℕ → List ℕ
  | [], prev, _ => prev
  | c1 :: s1, prev, i => levLoop s2 s1 ((i + 1) :: levRow c1 s2 prev (i + 1)) (i + 1)

/-- The non-swapping part of `_levenshtein_distance` in
`services/exercise_evaluator.py` (row-based dynamic program). -/
def levenshteinCore (s1 s2 : List Char) : ℕ :=
  if s2.length = 0 then s1.length
  else (levLoop s2 s1 (List.range (s2.length + 1)) 0).getLastD 0

/-- `_levenshtein_distance`: the source swaps the arguments once when the
first is shorter, and the recursive call then runs the dynamic program
directly, so the function is one `levenshteinCore` call on the ordered
pair. -/
def levenshteinDistance (s1 s2 : List Char) : ℕ :=
  if s1.length < s2.length then levenshteinCore s2 s1
  else levenshteinCore s1 s2

/-- JSON values as produced by `json.loads`; a number keeps its lexeme. -/
inductive JValue where
  | null
  | bool (b : Bool)
  | num (lexeme : List Char)
  | str (s : List Char)
  | arr (items : List JValue)
  | obj (fields : List (List Char × JValue))

/-- JSON insignificant whitespace (space, tab, line feed, carriage return). -/
def skipWs : List Char → List Char
  | c :: cs => if c = ' ' ∨ c = '\t' ∨ c = '\n' ∨ c = '\r' then skipWs cs else c :: cs
  | [] => []

/-- Longest digit prefix of the input, and the rest. -/
def parseDigits : List Char → List Char × List Char
  | c :: cs =>
    if c.isDigit then
      let p := parseDigits cs
      (c :: p.1, p.2)
    else ([], c :: cs)
  | [] => ([], [])

/-- JSON number token: `-? (0 | [1-9][0-9]*) (. [0-9]+)? ([eE][+-]?[0-9]+)?`.
An invalid fraction or exponent suffix is left unconsumed, which makes the
surrounding parse fail exactly where `json.loads` raises. -/
def parseNumber (s : List Char) : Option (List Char × List Char) :=
  let p := match s with
    | '-' :: r => (['-'], r)
    | _ => (([] : List Char), s)
  match p.2 with
  | [] => none
  | c :: cs =>
    if ¬ c.isDigit then none
    else
      let q :=
        if c = '0' then ([c], cs)
        else
          let d := parseDigits cs
          (c :: d.1, d.2)
      let fr : List Char × List Char :=
        match q.2 with
        | '.' :: r =>
          let d := parseDigits r
          if d.1 = [] then ([], q.2) else ('.' :: d.1, d.2)
        | _ => ([], q.2)
      let ex : List Char × List Char :=
        match fr.2 with
        | e :: r =>
          if e = 'e' ∨ e = 'E' then
            let sg := match r with
              | '+' :: r2 => (['+'], r2)
              | '-' :: r2 => (['-'], r2)
              | _ => (([] : List Char), r)
            let d := parseDigits sg.2
            if d.1 = [] then ([], fr.2) else (e :: (sg.1 ++ d.1), d.2)
          else ([], fr.2)
        | [] => ([], fr.2)
      some (p.1 ++ q.1 ++ fr.1 ++ ex.1, ex.2)

/-- Value of a hexadecimal digit. -/
def hexDigitVal (c : Char) : Option ℕ :=
  if '0' ≤ c ∧ c ≤ '9' then some (c.toNat - 48)
  else if 'a' ≤ c ∧ c ≤ 'f' then some (c.toNat - 87)
  else if 'A' ≤ c ∧ c ≤ 'F' then some (c.toNat - 55)
  else none

/-- Body of a JSON string after the opening quote: decoded characters and
the rest of the input after the closing quote.  Unescaped control
characters and invalid escapes fail, as in strict `json.loads`. -/
def parseStringBody : ℕ → List Char → Option (List Char × List Char)
  | 0, _ => none
  | _, [] => none
  | fuel + 1, c :: cs =>
    if c = '"' then some ([], cs)
    else if c = '\\' then
      match cs with
      | [] => none
      | e :: cs2 =>
        if e = 'u' then
          match cs2 with
          | h1 :: h2 :: h3 :: h4 :: cs3 =>
            match hexDigitVal h1, hexDigitVal h2, hexDigitVal h3, hexDigitVal h4 with
            | some a, some b, some u, some d =>
              match parseStringBody fuel cs3 with
              | some (body, rest) => some (Char.ofNat (((a * 16 + b) * 16 + u) * 16 + d) :: body, rest)
              | none => none
            | _, _, _, _ => none
          | _ => none
        else
          let dec : Option Char :=
            if e = '"' then some '"'
            else if e = '\\' then some '\\'
            else if e = '/' then some '/'
            else if e = 'b' then some (Char.ofNat 8)
            else if e = 'f' then some (Char.ofNat 12)
            else if e = 'n' then some '\n'
            else if e = 'r' then some '\r'
            else if e = 't' then some '\t'
            else none
          match dec with
          | some d =>
            match parseStringBody fuel cs2 with
            | some (body, rest) => some (d :: body, rest)
            | none => none
          | none => none
    else if c.toNat < 32 then none
    else
      match parseStringBody fuel cs with
      | some (body, rest) => some (c :: body, rest)
      | none => none

mutual

/-- Recursive-descent JSON value parser with fuel (the fuel bounds the
recursion depth; `jsonParse` supplies enough for any input). -/
def parseValue : ℕ → List Char → Option (JValue × List Char)
  | 0, _ => none
  | fuel + 1, s =>
    match skipWs s with
    | [] => none
    | c :: cs =>
      if c = 'n' then
        if isPrefixList "ull".toList cs then some (JValue.null, cs.drop 3) else none
      else if c = 't' then
        if isPrefixList "rue".toList cs then some (JValue.bool true, cs.drop 3) else none
      else if c = 'f' then
        if isPrefixList "alse".toList cs then some (JValue.bool false, cs.drop 4) else none
      else if c = '"' then
        match parseStringBody (cs.length + 1) cs with
        | some (body, rest) => some (JValue.str body, rest)
        | none => none
      else if c = '[' then
        match skipWs cs with
        | ']' :: rest => some (JValue.arr [], rest)
        | s2 =>
          match parseItems fuel s2 with
          | some (items, rest) => some (JValue.arr items, rest)
          | none => none
      else if c = '{' then
        match skipWs cs with
        | '}' :: rest => some (JValue.obj [], rest)
        | s2 =>
          match parseMembers fuel s2 with
          | some (fields, rest) => some (JValue.obj fields, rest)
          | none => none
      else
        match parseNumber (c :: cs) with
        | some (lexeme, rest) => some (JValue.num lexeme, rest)
        | none => none

/-- One or more comma-separated array items and the closing bracket. -/
def parseItems : ℕ → List Char → Option (List JValue × List Char)
  | 0, _ => none
  | fuel + 1, s =>
    match parseValue fuel s with
    | none => none
    | some (v, rest) =>
      match skipWs rest with
      | ',' :: r2 =>
        match parseItems fuel r2 with
        | some (vs, r3) => some (v :: vs, r3)
        | none => none
      | ']' :: r2 => some ([v], r2)
      | _ => none

/-- One or more `"key": value` members and the closing brace. -/
def parseMembers : ℕ → List Char → Option (List (List Char × JValue) × List Char)
  | 0, _ => none
  | fuel + 1, s =>
    match skipWs s with
    | '"' :: cs =>
      match parseStringBody (cs.length + 1) cs with
      | none => none
      | some (key, rest) =>
        match skipWs rest with
        | ':' :: r2 =>
          match parseValue fuel r2 with
          | none => none
          | some (v, r3) =>
            match skipWs r3 with
            | ',' :: r4 =>
              match parseMembers fuel r4 with
              | some (fs, r5) => some ((key, v) :: fs, r5)
              | none => none
            | '}' :: r4 => some ([(key, v)], r4)
            | _ => none
        | _ => none
    | _ => none

end

/-- `json.loads`: parse one JSON value and require only whitespace after
it; `none` models a raised `JSONDecodeError`. -/
def jsonParse (s : List Char) : Option JValue :=
  match parseValue (2 * s.length + 2) s with
  | some (v, rest) => if skipWs rest = [] then some v else none
  | none => none

/-- Dict lookup on parsed JSON object fields; a later duplicate wins, as
in the dict that `json.loads` builds. -/
def jLookup (fields : List (List Char × JValue)) (key : List Char) : Option JValue :=
  (fields.reverse.find? (fun p => p.1 == key)).map Prod.snd

/-- Field lookup on a JSON value that is an object. -/
def jLookupObj (v : JValue) (key : List Char) : Option JValue :=
  match v with
  | JValue.obj fields => jLookup fields key
  | _ => none

/-- The characters of the ```` ```json ```` fence marker. -/
def jsonFenceChars : List Char := "```json".toList

/-- The characters of the ```` ``` ```` fence marker. -/
def fenceChars : List Char := "```".toList

/-- The code-fence stripping shared by `_parse_response`
(`services/story_generator.py`) and `evaluate_with_llm`
(`services/exercise_evaluator.py`): when a json fence marker occurs,
`response.split("```json")[1].split("```")[0]`; else when a bare fence
occurs, `response.split("```")[1].split("```")[0]`; else the text
unchanged. -/
def stripFences (response : List Char) : List Char :=
  if containsSub jsonFenceChars response then
    upToFirst fenceChars (afterFirst jsonFenceChars response)
  else if containsSub fenceChars response then
    upToFirst fenceChars (afterFirst fenceChars response)
  else response

/-- `_fuzzy_match` in `services/exercise_evaluator.py`. -/
def fuzzyMatch (answer expected : List Char) : Bool :=
  let answerNormalized := normalizeText answer
  let expectedNormalized := normalizeText expected
  if answerNormalized = expectedNormalized then true
  else if simplifyRomanization answerNormalized = simplifyRomanization expectedNormalized then true
  else if expectedNormalized.length ≤ 6 then
    levenshteinDistance answerNormalized expectedNormalized ≤ 1
  else
    levenshteinDistance answerNormalized expectedNormalized ≤ 2

/-- `_parse_response` in `services/story_generator.py`: strip an optional
markdown code fence, then `json.loads` the stripped text; a decode error
yields the fallback structure, whose content is the fence-stripped (not
the original) response text. -/
def parseResponse (response : List Char) : JValue :=
  let response := stripFences response
  match jsonParse (pyStrip response) with
  | some v => v
  | none =>
    JValue.obj
      [("title".toList, JValue.str "Generated Story".toList),
       ("content_hindi".toList, JValue.str response),
       ("content_romanized".toList, JValue.str []),
       ("content_english".toList, JValue.str []),
       ("word_count".toList, JValue.num ['0']),
       ("sentences".toList, JValue.arr []),
       ("exercises".toList, JValue.arr [])]

/-- The result record of `ExerciseEvaluatorService` grading. -/
structure EvaluationResult where
  is_correct : Bool
  feedback : Option (List Char)
deriving DecidableEq, Repr

/-- The `except` fallback of `evaluate_with_llm`
(`services/exercise_evaluator.py`): fuzzy-match the answer and attach the
generic encouragement feedback. -/
def fallbackEvaluation (userAnswer correctAnswer : List Char) : EvaluationResult :=
  let c := fuzzyMatch userAnswer correctAnswer
  { is_correct := c,
    feedback := some (if c then "Good attempt!".toList
      else "Expected something like: ".toList ++ correctAnswer) }

/-- The `try` block of `evaluate_with_llm` applied to the collaborator's
response text: strip fences, `json.loads`, then
`result.get("is_correct", False)` and `result.get("feedback")`; `none`
models any raised exception (JSON decode error, or attribute error from
`.get` on a non-dict value). -/
def extractGrade (text : List Char) : Option (Bool × Option (List Char)) :=
  match jsonParse (pyStrip (stripFences text)) with
  | some (JValue.obj fields) =>
    some
      ((match jLookup fields "is_correct".toList with
        | some (JValue.bool b) => b
        | _ => false),
       (match jLookup fields "feedback".toList with
        | some (JValue.str s) => some s
        | _ => none))
  | _ => none

/-- `evaluate_with_llm`: `llmResponse` is the text returned by the
external generative-text collaborator, `none` when that call itself
raises (service unreachable, timeout); every failure path falls back to
the fuzzy match. -/
def evaluateWithLLM (llmResponse : Option (List Char)) (userAnswer correctAnswer : List Char) : EvaluationResult :=
  match llmResponse with
  | none => fallbackEvaluation userAnswer correctAnswer
  | some text =>
    match extractGrade text with
    | some (b, f) => { is_correct := b, feedback := f }
    | none => fallbackEvaluation userAnswer correctAnswer

/-- `ExerciseEvaluatorService.evaluate`: dispatch on the exercise type. -/
def evaluateAnswer (exType : ExerciseType) (llmResponse : Option (List Char)) (userAnswer correctAnswer : List Char) : EvaluationResult :=
  if exType = ExerciseType.MULTIPLE_CHOICE ∨ exType = ExerciseType.COMPREHENSION then
    let ic := normalizeText userAnswer == normalizeText correctAnswer
    { is_correct := ic,
      feedback := if ic then none else some ("The correct answer was: ".toList ++ correctAnswer) }
  else if exType = ExerciseType.FILL_BLANK then
    let ic := fuzzyMatch userAnswer correctAnswer
    { is_correct := ic,
      feedback := if ic then none else some ("Expected: ".toList ++ correctAnswer) }
  else if exType = ExerciseType.TRANSLATE_TO_HINDI ∨ exType = ExerciseType.TRANSLATE_TO_ENGLISH then
    evaluateWithLLM llmResponse userAnswer correctAnswer
  else if exType = ExerciseType.WORD_ORDER then
    let ic := normalizeText userAnswer == normalizeText correctAnswer
    { is_correct := ic,
      feedback := if ic then none else some ("Correct order: ".toList ++ correctAnswer) }
  else
    { is_correct := false, feedback := some "Unknown exercise type".toList }

/-- A vocabulary word as seen by the content selector: identity and tier. -/
structure SelWord where
  id : ℕ
  cefr_level : CEFRLevel
deriving DecidableEq, Repr

/-- The persisted state the selector queries: the word table and the ids
of the words the user already has a `UserWord` row for. -/
structure UserDB where
  words : List SelWord
  ownedWordIds : List ℕ
deriving Repr

/-- The `select(Word).where(Word.id.in_(include_ids))` query of
`_select_new_words` (`services/story_generator.py`). -/
def includedWordsOf (db : UserDB) (includeIds : List ℕ) : List SelWord :=
  db.words.filter (fun w => includeIds.contains w.id)

/-- The candidate set of the second query of `_select_new_words`: words
at the requested level, excluding words the user already owns and the
explicitly included words. -/
def availableNewWords (db : UserDB) (level : CEFRLevel) (includeIds : List ℕ) : List SelWord :=
  db.words.filter (fun w =>
    w.cefr_level == level
      && !(db.ownedWordIds.contains w.id)
      && !(((includedWordsOf db includeIds).map SelWord.id).contains w.id))

/-- `_select_new_words`: `shuffled` is the random-order result of the
candidate query (a permutation of `availableNewWords`); the source takes
`needed + 2` of it (`limit`), appends to the included words and returns
the first five. -/
def selectNewWords (db : UserDB) (includeIds : List ℕ) (shuffled : List SelWord) : List SelWord :=
  let includedWords := includedWordsOf db includeIds
  let needed := 3 - includedWords.length
  let extra := if 0 < needed then shuffled.take (needed + 2) else []
  (includedWords ++ extra).take 5

/-- A grammar concept as seen by the selector. -/
structure GrammarC where
  id : ℕ
deriving DecidableEq, Repr

/-- `_get_available_grammar`: `focusConcept` is the focus-id lookup
result (`none` when no focus id was given or it was not found);
`learningConcepts` is the ordered learning/available query result, capped
by the source's `limit(2)`. -/
def getAvailableGrammar (focusConcept : Option GrammarC) (learningConcepts : List GrammarC) : List GrammarC :=
  match focusConcept with
  | some c => [c]
  | none => learningConcepts.take 2

/-- The per-target-word update of `complete_story` (`routes/stories.py`):
bump an existing row's `times_seen`, stamp `last_seen_at` and promote
`NEW` to `LEARNING`; or create a fresh `LEARNING` row with `times_seen`
one and the model's column defaults for the SRS fields. -/
def completeStoryWordUpdate (now : ℚ) (existing : Option UserWord) : UserWord :=
  match existing with
  | some uw =>
    let uw := { uw with times_seen := uw.times_seen + 1, last_seen_at := some now }
    if uw.status = WordStatus.NEW then { uw with status := WordStatus.LEARNING } else uw
  | none =>
    { status := WordStatus.LEARNING, familiarity := 0, times_seen := 1,
      times_reviewed := 0, times_correct := 0, last_seen_at := some now,
      next_review_at := none, srs_interval_days := 1, srs_ease_factor := 5/2 }

/-- Acquisition ordering on word statuses. -/
def statusRank : WordStatus → ℕ
  | WordStatus.NEW => 0
  | WordStatus.LEARNING => 1
  | WordStatus.KNOWN => 2
  | WordStatus.MASTERED => 3

/-- C1: for every progress row and integer quality in `[0, 5]`,
`submit_review` resets the interval to one day leaving the ease factor
unchanged when `quality < 3`, and otherwise sets the ease factor to
`max(1.3, ease + (0.1 - (5 - quality) * (0.08 + (5 - quality) * 0.02)))`
and the interval to 1 when the prior interval was 0, to 6 when it was 1,
and to `round(prior_interval * new_ease)` otherwise. -/
theorem submitReview_interval_ease (now : ℚ) (quality : ℤ) (uw : UserWord)
    (h0 : 0 ≤ quality) (h5 : quality ≤ 5) :
    (quality < 3 →
      (submitReview now quality uw).srs_interval_days = 1 ∧
      (submitReview now quality uw).srs_ease_factor = uw.srs_ease_factor) ∧
    (3 ≤ quality →
      (submitReview now quality uw).srs_ease_factor =
        max (13/10) (uw.srs_ease_factor +
          (1/10 - ((5 - quality : ℤ) : ℚ) * (8/100 + ((5 - quality : ℤ) : ℚ) * (2/100)))) ∧
      (submitReview now quality uw).srs_interval_days =
        (if uw.srs_interval_days = 0 then (1 : ℚ)
         else if uw.srs_interval_days = 1 then 6
         else (pyRound (uw.srs_interval_days * (submitReview now quality uw).srs_ease_factor) : ℚ))) := by
  constructor
  · intro h
    have h3 : ¬ (3 ≤ quality) := by omega
    simp [submitReview, h, h3]
  · intro h
    have h3 : ¬ (quality < 3) := by omega
    simp [submitReview, h, h3, updatedEase]

/-- Witness for C1 at quality 4 on the default row. -/
theorem submitReview_interval_ease_witness :
    (submitReview 0 4 sampleWord).srs_ease_factor =
      max (13/10) (sampleWord.srs_ease_factor +
        (1/10 - ((5 - 4 : ℤ) : ℚ) * (8/100 + ((5 - 4 : ℤ) : ℚ) * (2/100)))) ∧
    (submitReview 0 4 sampleWord).srs_interval_days =
      (if sampleWord.srs_interval_days = 0 then (1 : ℚ)
       else if sampleWord.srs_interval_days = 1 then 6
       else (pyRound (sampleWord.srs_interval_days * (submitReview 0 4 sampleWord).srs_ease_factor) : ℚ)) :=
  (submitReview_interval_ease 0 4 sampleWord (by decide) (by decide)).2 (by decide)

/-- C2: after every `submit_review`, familiarity equals
`times_correct / max(1, times_reviewed)` over the post-increment counters
clamped into `[0, 1]`, the status is MASTERED when familiarity is at
least 0.9 and the new interval at least 21 days, else KNOWN when
familiarity is at least 0.7, else LEARNING; the status NEW is never
produced. -/
theorem submitReview_familiarity_status (now : ℚ) (quality : ℤ) (uw : UserWord) :
    (submitReview now quality uw).familiarity =
      max 0 (min 1 (((submitReview now quality uw).times_correct : ℚ) /
        ((max 1 (submitReview now quality uw).times_reviewed : ℕ) : ℚ))) ∧
    (submitReview now quality uw).status =
      (if 9/10 ≤ (submitReview now quality uw).familiarity ∧
          21 ≤ (submitReview now quality uw).srs_interval_days then WordStatus.MASTERED
       else if 7/10 ≤ (submitReview now quality uw).familiarity then WordStatus.KNOWN
       else WordStatus.LEARNING) ∧
    (submitReview now quality uw).status ≠ WordStatus.NEW := by
  rcases lt_or_le quality 3 with h | h
  · have h3 : ¬ (3 ≤ quality) := by omega
    refine ⟨?_, ?_, ?_⟩
    · simp only [submitReview, h, h3]
      simp
      positivity
    · simp [submitReview, h, h3]
    · simp only [submitReview, h, h3]
      simp
      split_ifs <;> simp
  · have h3 : ¬ (quality < 3) := by omega
    refine ⟨?_, ?_, ?_⟩
    · simp only [submitReview, h, h3]
      simp
      positivity
    · simp [submitReview, h, h3]
    · simp only [submitReview, h, h3]
      simp
      split_ifs <;> simp

/-- One `submit_review` call keeps the ease factor at or above 1.3. -/
theorem submitReview_ease_lb (now : ℚ) (quality : ℤ) (uw : UserWord)
    (h : 13/10 ≤ uw.srs_ease_factor) :
    13/10 ≤ (submitReview now quality uw).srs_ease_factor := by
  rcases lt_or_le quality 3 with hq | hq
  · have h3 : ¬ (3 ≤ quality) := by omega
    simpa [submitReview, hq, h3] using h
  · have h3 : ¬ (quality < 3) := by omega
    simp [submitReview, hq, h3, updatedEase]

/-- C3: the ease factor never drops below 1.3: starting from a row with
ease factor at least 1.3, any finite sequence of reviews with qualities
in `[0, 5]` leaves it at least 1.3. -/
theorem srs_ease_floor (now : ℚ) (qs : List ℤ) (uw : UserWord)
    (h : 13/10 ≤ uw.srs_ease_factor) (hqs : ∀ q ∈ qs, 0 ≤ q ∧ q ≤ 5) :
    13/10 ≤ (submitReviews now uw qs).srs_ease_factor := by
  induction qs generalizing uw with
  | nil => simpa [submitReviews] using h
  | cons q rest ih =>
    simp only [submitReviews, List.foldl_cons] at ih ⊢
    exact ih (submitReview now q uw) (submitReview_ease_lb now q uw h)
      (fun p hp => hqs p (List.mem_cons_of_mem _ hp))

/-- Witness for C3 on the default row and the history `[0, 5, 3]`. -/
theorem srs_ease_floor_witness :
    13/10 ≤ (submitReviews 0 sampleWord [0, 5, 3]).srs_ease_factor :=
  srs_ease_floor 0 [0, 5, 3] sampleWord (by norm_num [sampleWord]) (by decide)

/-- C4 counterexample: the story-readiness tables map 399 to B1 (not A2)
and 400 to B2 (not B1), because their cutoffs are 50/150/400. -/
theorem levelTables_counterexample :
    determineUserLevel 399 ≠ CEFRLevel.A2 ∧ determineUserLevel 400 ≠ CEFRLevel.B1 ∧
    readyStoryLevel 399 ≠ CEFRLevel.A2 ∧ readyStoryLevel 400 ≠ CEFRLevel.B1 := by
  decide

/-- C4 amended: the story-readiness tables (story generator and story
readiness endpoint, cutoffs 50/150/400) map 49 to A1, 50 to A2, 149 to
A2, 150 to B1, 399 to B1 and 400 to B2; the dashboard-stats table uses
cutoffs 100/300/600. -/
theorem levelTables_amended :
    (determineUserLevel 49 = CEFRLevel.A1 ∧ determineUserLevel 50 = CEFRLevel.A2 ∧
     determineUserLevel 149 = CEFRLevel.A2 ∧ determineUserLevel 150 = CEFRLevel.B1 ∧
     determineUserLevel 399 = CEFRLevel.B1 ∧ determineUserLevel 400 = CEFRLevel.B2) ∧
    (readyStoryLevel 49 = CEFRLevel.A1 ∧ readyStoryLevel 50 = CEFRLevel.A2 ∧
     readyStoryLevel 149 = CEFRLevel.A2 ∧ readyStoryLevel 150 = CEFRLevel.B1 ∧
     readyStoryLevel 399 = CEFRLevel.B1 ∧ readyStoryLevel 400 = CEFRLevel.B2) ∧
    (∀ n : ℕ,
      (n < 100 → determineLevel n = CEFRLevel.A1) ∧
      (100 ≤ n → n < 300 → determineLevel n = CEFRLevel.A2) ∧
      (300 ≤ n → n < 600 → determineLevel n = CEFRLevel.B1) ∧
      (600 ≤ n → determineLevel n = CEFRLevel.B2)) := by
  refine ⟨by decide, by decide, ?_⟩
  intro n
  refine ⟨fun h => ?_, fun h1 h2 => ?_, fun h1 h2 => ?_, fun h => ?_⟩ <;>
    · unfold determineLevel
      split_ifs <;> first | rfl | omega

/-- Witness for C4's amended dashboard table at 600 words. -/
theorem levelTables_amended_witness : determineLevel 600 = CEFRLevel.B2 :=
  (levelTables_amended.2.2 600).2.2.2 (by decide)

/-- C5: sessions on the dates today, yesterday and two days ago give
streak 3; a gap (today and two days ago) gives streak 1; no ended
sessions give streak 0; and a duplicated session date never increments
the streak more than once. -/
theorem streak_computation (t : ℤ) :
    calculateStreak t [t, t - 1, t - 2] = 3 ∧
    calculateStreak t [t, t - 2] = 1 ∧
    calculateStreak t [] = 0 ∧
    (∀ (cur : ℤ) (streak : ℕ) (d : ℤ) (l : List ℤ),
      streakLoop cur streak (d :: d :: l) = streakLoop cur streak (d :: l)) := by
  refine ⟨?_, ?_, ?_, ?_⟩
  · simp only [calculateStreak, streakLoop, Nat.zero_max]
    split_ifs <;> first | omega | simp_all
  · simp only [calculateStreak, streakLoop, Nat.zero_max]
    split_ifs <;> first | omega | simp_all
  · simp [calculateStreak]
  · intro cur streak d l
    by_cases h1 : d = cur
    · subst h1
      simp [streakLoop, max_assoc, max_self]
    · by_cases h2 : d = cur - 1
      · subst h2
        simp [streakLoop, h1, max_eq_left (Nat.le_add_left 1 streak)]
      · simp [streakLoop, h1, h2]

set_option maxRecDepth 4000 in
/-- C6: fuzzy match accepts exactly when the normalized strings are
equal, or equal after collapsing the romanization variants, or within
Levenshtein distance 1 (expected length at most 6) respectively 2
(otherwise); in particular `chhota` matches `chota`, a distance-3 answer
against a 10-character expected answer is rejected, and a distance-1
answer against a 5-character expected answer is accepted. -/
theorem fuzzyMatch_spec :
    (∀ answer expected : List Char,
      fuzzyMatch answer expected = true ↔
        (normalizeText answer = normalizeText expected ∨
         simplifyRomanization (normalizeText answer) = simplifyRomanization (normalizeText expected) ∨
         levenshteinDistance (normalizeText answer) (normalizeText expected) ≤
           (if (normalizeText expected).length ≤ 6 then 1 else 2))) ∧
    fuzzyMatch "chhota".toList "chota".toList = true ∧
    (levenshteinDistance "nclmrvnxyz".toList "nclmrvnclm".toList = 3 ∧
     ("nclmrvnclm".toList).length = 10 ∧
     fuzzyMatch "nclmrvnxyz".toList "nclmrvnclm".toList = false) ∧
    (levenshteinDistance "nclmv".toList "nclmr".toList = 1 ∧
     ("nclmr".toList).length = 5 ∧
     fuzzyMatch "nclmv".toList "nclmr".toList = true) := by
  refine ⟨?_, by decide, by decide, by decide⟩
  intro answer expected
  by_cases h1 : normalizeText answer = normalizeText expected
  · simp [fuzzyMatch, h1]
  · by_cases h2 : simplifyRomanization (normalizeText answer) =
        simplifyRomanization (normalizeText expected)
    · simp [fuzzyMatch, h1, h2]
    · by_cases h3 : (normalizeText expected).length ≤ 6
      · simp [fuzzyMatch, h1, h2, h3]
      · simp [fuzzyMatch, h1, h2, h3]

/-- C7: the content selector's outputs are deduplicated and bounded (at
most five new words, at most two grammar concepts), and for a user with
no owned-word exclusions taking effect and no explicitly requested ids,
with at least three candidate words at the tier, it returns between
three and five ids none of which the user already owns. -/
theorem contentSelector_bounds (db : UserDB) (level : CEFRLevel)
    (includeIds : List ℕ) (shuffled : List SelWord)
    (hnd : (db.words.map SelWord.id).Nodup)
    (hperm : shuffled.Perm (availableNewWords db level includeIds)) :
    (selectNewWords db includeIds shuffled).length ≤ 5 ∧
    ((selectNewWords db includeIds shuffled).map SelWord.id).Nodup ∧
    (∀ (focusConcept : Option GrammarC) (learningConcepts : List GrammarC),
      (getAvailableGrammar focusConcept learningConcepts).length ≤ 2) ∧
    (includeIds = [] → 3 ≤ (availableNewWords db level includeIds).length →
      3 ≤ (selectNewWords db includeIds shuffled).length ∧
      ∀ w ∈ selectNewWords db includeIds shuffled, w.id ∉ db.ownedWordIds) := by
  have hmemAvail : ∀ w ∈ availableNewWords db level includeIds,
      w.id ∉ db.ownedWordIds ∧
      w.id ∉ (includedWordsOf db includeIds).map SelWord.id := by
    intro w hw
    have hcond := List.of_mem_filter hw
    simp only [Bool.and_eq_true, Bool.not_eq_true'] at hcond
    constructor
    · simpa using hcond.1.2
    · simpa using hcond.2
  have hIncNodup : ((includedWordsOf db includeIds).map SelWord.id).Nodup :=
    hnd.sublist ((List.filter_sublist _).map SelWord.id)
  have hAvailNodup : ((availableNewWords db level includeIds).map SelWord.id).Nodup :=
    hnd.sublist ((List.filter_sublist _).map SelWord.id)
  have hShufNodup : (shuffled.map SelWord.id).Nodup :=
    ((hperm.map SelWord.id).nodup_iff).mpr hAvailNodup
  have hSelEq : selectNewWords db includeIds shuffled =
      ((includedWordsOf db includeIds ++
        (if 0 < 3 - (includedWordsOf db includeIds).length
          then shuffled.take (3 - (includedWordsOf db includeIds).length + 2)
          else [])).take 5) := rfl
  have hExtraSub : List.Sublist
      (if 0 < 3 - (includedWordsOf db includeIds).length
        then shuffled.take (3 - (includedWordsOf db includeIds).length + 2)
        else []) shuffled := by
    split_ifs
    · exact List.take_sublist _ _
    · exact List.nil_sublist _
  have hOutNodup : ((selectNewWords db includeIds shuffled).map SelWord.id).Nodup := by
    have hExtraNodup : (((if 0 < 3 - (includedWordsOf db includeIds).length
        then shuffled.take (3 - (includedWordsOf db includeIds).length + 2)
        else [])).map SelWord.id).Nodup :=
      hShufNodup.sublist (hExtraSub.map SelWord.id)
    have hDisj : ∀ x ∈ (includedWordsOf db includeIds).map SelWord.id,
        x ∉ ((if 0 < 3 - (includedWordsOf db includeIds).length
          then shuffled.take (3 - (includedWordsOf db includeIds).length + 2)
          else [])).map SelWord.id := by
      intro x hx hx'
      rcases List.mem_map.mp hx' with ⟨w, hw, rfl⟩
      have hwShuf : w ∈ shuffled := hExtraSub.subset hw
      have hwAvail : w ∈ availableNewWords db level includeIds := hperm.subset hwShuf
      exact (hmemAvail w hwAvail).2 hx
    have happ : (((includedWordsOf db includeIds) ++
        (if 0 < 3 - (includedWordsOf db includeIds).length
          then shuffled.take (3 - (includedWordsOf db includeIds).length + 2)
          else [])).map SelWord.id).Nodup := by
      rw [List.map_append]
      exact List.Nodup.append hIncNodup hExtraNodup hDisj
    rw [hSelEq]
    exact happ.sublist ((List.take_sublist 5 _).map SelWord.id)
  refine ⟨?_, hOutNodup, ?_, ?_⟩
  · rw [hSelEq]
    exact List.length_take_le _ _
  · intro focusConcept learningConcepts
    cases focusConcept with
    | some c => simp [getAvailableGrammar]
    | none =>
      simp only [getAvailableGrammar]
      exact List.length_take_le _ _
  · intro hinc hlen
    have hincEmpty : includedWordsOf db includeIds = [] := by
      subst hinc
      simp [includedWordsOf]
    have hsel : selectNewWords db includeIds shuffled = shuffled.take 5 := by
      rw [hSelEq, hincEmpty]
      simp [List.take_take]
    constructor
    · rw [hsel, List.length_take]
      have hl := hperm.length_eq
      exact le_min (by norm_num) (by omega)
    · intro w hw
      rw [hsel] at hw
      have hwShuf : w ∈ shuffled := (List.take_sublist _ _).subset hw
      exact (hmemAvail w (hperm.subset hwShuf)).1

/-- A concrete word table for the C7 witness: four unowned A1 words. -/
def dbSample : UserDB :=
  { words := [⟨1, CEFRLevel.A1⟩, ⟨2, CEFRLevel.A1⟩, ⟨3, CEFRLevel.A1⟩, ⟨4, CEFRLevel.A1⟩],
    ownedWordIds := [9] }

/-- Witness for C7: with no include ids and four A1 candidates, the
selector keeps between three and five words. -/
theorem contentSelector_bounds_witness :
    3 ≤ (selectNewWords dbSample []
      (availableNewWords dbSample CEFRLevel.A1 [])).length ∧
    (selectNewWords dbSample []
      (availableNewWords dbSample CEFRLevel.A1 [])).length ≤ 5 :=
  ⟨((contentSelector_bounds dbSample CEFRLevel.A1 []
      (availableNewWords dbSample CEFRLevel.A1 [])
      (by decide) (List.Perm.refl _)).2.2.2 rfl (by decide)).1,
   (contentSelector_bounds dbSample CEFRLevel.A1 []
      (availableNewWords dbSample CEFRLevel.A1 [])
      (by decide) (List.Perm.refl _)).1⟩

/-- C8: translation exercises delegate to the external generative-text
collaborator, and every failure of that collaborator (call raised, JSON
decode error, or non-dict content) falls back to the fuzzy-match verdict
with the generic encouragement feedback instead of propagating. -/
theorem translate_llm_fallback (llmResponse : Option (List Char)) (userAnswer correctAnswer : List Char) :
    evaluateAnswer ExerciseType.TRANSLATE_TO_HINDI llmResponse userAnswer correctAnswer =
      evaluateWithLLM llmResponse userAnswer correctAnswer ∧
    evaluateAnswer ExerciseType.TRANSLATE_TO_ENGLISH llmResponse userAnswer correctAnswer =
      evaluateWithLLM llmResponse userAnswer correctAnswer ∧
    evaluateWithLLM none userAnswer correctAnswer =
      fallbackEvaluation userAnswer correctAnswer ∧
    (∀ text : List Char, extractGrade text = none →
      evaluateWithLLM (some text) userAnswer correctAnswer =
        fallbackEvaluation userAnswer correctAnswer) ∧
    (fallbackEvaluation userAnswer correctAnswer).is_correct = fuzzyMatch userAnswer correctAnswer ∧
    (fallbackEvaluation userAnswer correctAnswer).feedback =
      some (if fuzzyMatch userAnswer correctAnswer then "Good attempt!".toList
        else "Expected something like: ".toList ++ correctAnswer) := by
  refine ⟨?_, ?_, rfl, ?_, rfl, rfl⟩
  · simp [evaluateAnswer]
  · simp [evaluateAnswer]
  · intro text h
    simp [evaluateWithLLM, h]

/-- Witness for C8: unparseable collaborator content falls back to the
fuzzy verdict. -/
theorem translate_llm_fallback_witness :
    evaluateWithLLM (some "oops".toList) "ab".toList "cd".toList =
      fallbackEvaluation "ab".toList "cd".toList :=
  (translate_llm_fallback (some "oops".toList) "ab".toList "cd".toList).2.2.2.1
    "oops".toList (by rfl)

/-- C9 counterexample: on a fenced, malformed response the fallback
content is the fence-stripped text, not the raw response text as the
claim states. -/
theorem parseResponse_counterexample :
    jsonParse (pyStrip (stripFences "```json\nnot valid\n```".toList)) = none ∧
    jLookupObj (parseResponse "```json\nnot valid\n```".toList) "content_hindi".toList =
      some (JValue.str "\nnot valid\n".toList) ∧
    "\nnot valid\n".toList ≠ "```json\nnot valid\n```".toList := by
  refine ⟨rfl, rfl, by decide⟩

/-- C9 amended: `_parse_response` is total; it strips an optional code
fence and parses the JSON, returning the parsed value on success, and on
malformed JSON returns the default structure with empty sentences and
exercises lists and the fence-stripped text (the raw text only when no
fence is present) as the content. -/
theorem parseResponse_amended :
    (∀ response : List Char, ∀ v : JValue,
      jsonParse (pyStrip (stripFences response)) = some v →
      parseResponse response = v) ∧
    (∀ response : List Char,
      jsonParse (pyStrip (stripFences response)) = none →
      jLookupObj (parseResponse response) "sentences".toList = some (JValue.arr []) ∧
      jLookupObj (parseResponse response) "exercises".toList = some (JValue.arr []) ∧
      jLookupObj (parseResponse response) "content_hindi".toList =
        some (JValue.str (stripFences response))) ∧
    parseResponse "```json\n\x7b\"title\": \"T\", \"sentences\": []\x7d\n```".toList =
      JValue.obj [("title".toList, JValue.str "T".toList),
                  ("sentences".toList, JValue.arr [])] := by
  refine ⟨?_, ?_, by rfl⟩
  · intro response v h
    simp [parseResponse, h]
  · intro response h
    simp [parseResponse, h, jLookupObj, jLookup]

/-- Witness for C9's amended claim on an unfenced malformed response. -/
theorem parseResponse_amended_witness :
    jLookupObj (parseResponse "not json".toList) "content_hindi".toList =
      some (JValue.str (stripFences "not json".toList)) :=
  (parseResponse_amended.2.1 "not json".toList (by rfl)).2.2

/-- C10: completing a story never demotes a word: a missing row is
created as LEARNING with one view; an existing row gets its view counter
bumped, keeps its status unless it was NEW (promoted to LEARNING), and
keeps every SRS field unchanged. -/
theorem completeStory_frame (now : ℚ) (uw : UserWord) :
    ((completeStoryWordUpdate now none).status = WordStatus.LEARNING ∧
     (completeStoryWordUpdate now none).times_seen = 1) ∧
    ((completeStoryWordUpdate now (some uw)).times_seen = uw.times_seen + 1 ∧
     (completeStoryWordUpdate now (some uw)).status =
       (if uw.status = WordStatus.NEW then WordStatus.LEARNING else uw.status) ∧
     statusRank uw.status ≤ statusRank (completeStoryWordUpdate now (some uw)).status ∧
     (completeStoryWordUpdate now (some uw)).srs_interval_days = uw.srs_interval_days ∧
     (completeStoryWordUpdate now (some uw)).srs_ease_factor = uw.srs_ease_factor ∧
     (completeStoryWordUpdate now (some uw)).next_review_at = uw.next_review_at ∧
     (completeStoryWordUpdate now (some uw)).times_reviewed = uw.times_reviewed ∧
     (completeStoryWordUpdate now (some uw)).times_correct = uw.times_correct ∧
     (completeStoryWordUpdate now (some uw)).familiarity = uw.familiarity) := by
  refine ⟨⟨rfl, rfl⟩, ?_⟩
  by_cases h : uw.status = WordStatus.NEW <;>
    simp [completeStoryWordUpdate, h, statusRank]
